import Mathlib

/-!
Shallow embedding of the dispute-classification core of the
`dispute_assistant` repository (`dispute_assistant/core.py` and
`dispute_assistant/config.py`).

Modelling conventions:
* pandas rows become Lean structures; monetary amounts are `ℚ`;
  timestamps are `ℤ` (seconds); `timedelta(minutes = w)` is `w * 60`.
* A dispute row's possibly-missing `description` column
  (`dispute.get('description')` returning `None`) is `Option String`.
* The external text-scoring libraries (`thefuzz.fuzz.token_set_ratio`
  and the sentence-transformers cosine similarity) are modelled as an
  oracle `MatchOracle`; the repository's own logic (keyword map,
  waterfall, score combination, duplicate detection, pipeline) is
  translated literally and is parametric in that oracle.
* Python exceptions that escape a function are modelled by `Option`
  (`none` = the call raised).
* Python `round(x, 2)` is modelled as rounding `x * 100` to the nearest
  integer and dividing by `100`.
-/

namespace DisputeAssistant

/-- A row of the transactions CSV (`txn_id, customer_id, amount, timestamp, status`). -/
structure Transaction where
  txn_id : String
  customer_id : String
  amount : ℚ
  timestamp : ℤ
  status : String
deriving DecidableEq, Repr

/-- A row of the disputes CSV (`dispute_id, description, txn_id, created_at`).
`description` is `none` when the column is absent from the input
(`dispute.get('description')` yields `None` in that case). -/
structure Dispute where
  dispute_id : String
  description : Option String
  txn_id : String
  created_at : ℤ
deriving DecidableEq, Repr

/-- Oracle for the two external scoring libraries: `fuzzyScore text phrase`
models `fuzz.token_set_ratio` (an integer in 0..100) and `embedScore text
phrase` models the cosine similarity of the sentence embeddings;
`embed_available` is whether the `SentenceTransformer` model loaded. -/
structure MatchOracle where
  fuzzyScore : String → String → ℕ
  embed_available : Bool
  embedScore : String → String → ℚ

/-- Ordered-association-list lookup, modelling Python `dict.get`. -/
def lookupList {α : Type} (m : List (String × α)) (k : String) : Option α :=
  (m.find? (fun p => p.1 == k)).map (fun p => p.2)

/-- `config.KEYWORD_MAP`, in insertion order. -/
def KEYWORD_MAP : List (String × List String) :=
  [("FRAUD",
     ["fraud", "unauthorized", "suspicious", "chargeback",
      "i didn\x27t make this payment",
      "not my transaction",
      "do not recognize this charge",
      "someone else used my card",
      "hacked"]),
   ("REFUND_PENDING",
     ["refund", "waiting for money back", "reversed", "pending refund",
      "refund not received", "amount not reversed"]),
   ("FAILED_TRANSACTION",
     ["failed", "money debited but not processed", "payment failed",
      "transaction declined", "gateway failed"])]

/-- An entry of `config.RESOLUTION_MAP`. -/
structure ResolutionInfo where
  action : String
  justification : String
deriving DecidableEq, Repr

/-- The `OTHERS` entry of `config.RESOLUTION_MAP`. -/
def OTHERS_RESOLUTION : ResolutionInfo :=
  ⟨"Ask for more info",
   "The nature of the dispute is unclear and requires more details from the customer."⟩

/-- `config.RESOLUTION_MAP`, in insertion order. -/
def RESOLUTION_MAP : List (String × ResolutionInfo) :=
  [("DUPLICATE_CHARGE",
     ⟨"Auto-refund", "High confidence duplicate transaction pattern detected."⟩),
   ("FRAUD",
     ⟨"Mark as potential fraud & Escalate to bank",
      "Transaction shows strong indicators of potential fraud."⟩),
   ("FAILED_TRANSACTION",
     ⟨"Manual review",
      "Customer claims debit despite failed status. Verify and process manual refund."⟩),
   ("REFUND_PENDING",
     ⟨"Escalate to bank",
      "Customer is waiting for a refund. Trace status with payment gateway or bank."⟩),
   ("OTHERS", OTHERS_RESOLUTION)]

/-- `core._find_duplicate_transactions`: filter the ledger to other
transactions of the same customer with the identical amount, then test
whether any falls within `window_minutes` of the disputed transaction. -/
def _find_duplicate_transactions (dispute_txn : Transaction)
    (all_txns_df : List Transaction) (window_minutes : ℤ) : Bool :=
  let time_window : ℤ := window_minutes * 60
  let dispute_time := dispute_txn.timestamp
  let potential_duplicates := all_txns_df.filter (fun row =>
    row.customer_id == dispute_txn.customer_id &&
    row.amount == dispute_txn.amount &&
    row.txn_id != dispute_txn.txn_id)
  potential_duplicates.any (fun row =>
    decide (|dispute_time - row.timestamp| ≤ time_window))

/-- `thefuzz.process.extractOne`: best (phrase, score) pair, first
maximal element kept on ties; `none` on an empty candidate list. -/
def extractOne (score : String → ℕ) : List String → Option (String × ℕ)
  | [] => none
  | p :: ps =>
    some (ps.foldl (fun best q => if best.2 < score q then (q, score q) else best)
      (p, score p))

/-- `HybridMatcher.best_fuzzy_match`: best phrase and fuzz score for a
category; `("", 0)` when the category has no phrase list. -/
def best_fuzzy_match (o : MatchOracle) (km : List (String × List String))
    (text category : String) : String × ℕ :=
  match lookupList km category with
  | none => ("", 0)
  | some phrases =>
    match extractOne (o.fuzzyScore text) phrases with
    | none => ("", 0)
    | some best => best

/-- `HybridMatcher.best_embedding_score`: max cosine similarity between
the text and any phrase of the category; `0` when the embedding model is
unavailable, the category is unknown, or scoring fails. -/
def best_embedding_score (o : MatchOracle) (km : List (String × List String))
    (text category : String) : ℚ :=
  if o.embed_available = false then 0
  else
    match lookupList km category with
    | none => 0
    | some phrases =>
      match phrases.map (o.embedScore text) with
      | [] => 0
      | s :: ss => ss.foldl max s

/-- Per-category raw scores, as produced by `score_all_categories`. -/
structure CatScores where
  best_phrase : String
  fuzzy : ℕ
  embed : ℚ
deriving DecidableEq, Repr

/-- `HybridMatcher.score_all_categories`: fuzzy and embedding scores for
every category of the keyword map, in key order. -/
def score_all_categories (o : MatchOracle) (km : List (String × List String))
    (text : String) : List (String × CatScores) :=
  km.map (fun pair =>
    let bf := best_fuzzy_match o km text pair.1
    (pair.1, ⟨bf.1, bf.2, best_embedding_score o km text pair.1⟩))

/-- `core._combine_scores`: blend a 0..100 lexical score and a 0..1
embedding score into one 0..1 score with lexical weight `fuzz_weight`. -/
def _combine_scores (fuzzy_score embed_score fuzz_weight : ℚ) : ℚ :=
  fuzz_weight * (fuzzy_score / 100) + (1 - fuzz_weight) * embed_score

/-- One entry of the `combined` dict built inside `classify_dispute`. -/
structure CombinedEntry where
  combined : ℚ
  fuzzy : ℕ
  embed : ℚ
  best_phrase : String
deriving DecidableEq, Repr

/-- The `combined` dict of `classify_dispute`: combined scores for every
category of `KEYWORD_MAP` (the global matcher's map), in key order. -/
def combinedFor (o : MatchOracle) (text : String) : List (String × CombinedEntry) :=
  (score_all_categories o KEYWORD_MAP text).map (fun p =>
    (p.1, ⟨_combine_scores (p.2.fuzzy : ℚ) p.2.embed 0.6, p.2.fuzzy, p.2.embed,
           p.2.best_phrase⟩))

/-- `combined.get(cat, {}).get('combined', 0.0)`. -/
def getCombined (l : List (String × CombinedEntry)) (cat : String) : ℚ :=
  match lookupList l cat with
  | none => 0
  | some e => e.combined

/-- `combined[cat]` (direct access; default entry models the impossible
`KeyError` path, which is unreachable wherever it is used). -/
def getEntry (l : List (String × CombinedEntry)) (cat : String) : CombinedEntry :=
  match lookupList l cat with
  | none => ⟨0, 0, 0, ""⟩
  | some e => e

/-- The combined score `classify_dispute` sees for a category on a
(lower-cased) description. -/
def combinedScore (o : MatchOracle) (text cat : String) : ℚ :=
  getCombined (combinedFor o text) cat

/-- `_combined_to_confidence`: map a combined score onto the confidence
range 0.5..0.95, `round(0.5 + 0.45 * clamp(score, 0, 1), 2)`. -/
def _combined_to_confidence (score : ℚ) : ℚ :=
  ((round ((0.5 + 0.45 * min (max score 0) 1) * 100) : ℤ) : ℚ) / 100

/-- Render a rational with two decimals, modelling Python `{x:.2f}`. -/
def fmt2 (q : ℚ) : String :=
  let n : ℤ := round (q * 100)
  let sign := if n < 0 then "-" else ""
  let a := n.natAbs
  let r := a % 100
  sign ++ toString (a / 100) ++ "." ++ (if r < 10 then "0" else "") ++ toString r

/-- Fixed explanation of the metadata duplicate rule. -/
def dup_metadata_explanation : String :=
  "Data analysis found a transaction with the same amount and customer within 3 minutes."

/-- Explanation string of the FRAUD tier. -/
def fraud_explanation (e : CombinedEntry) : String :=
  "Description matched FRAUD keywords. phrase=\x27" ++ e.best_phrase ++
    "\x27, fuzzy=" ++ toString e.fuzzy ++ ", embed=" ++ fmt2 e.embed

/-- Explanation string of the REFUND_PENDING tier. -/
def refund_explanation (e : CombinedEntry) : String :=
  "Description matched REFUND_PENDING. phrase=\x27" ++ e.best_phrase ++
    "\x27, fuzzy=" ++ toString e.fuzzy ++ ", embed=" ++ fmt2 e.embed

/-- Explanation string of the FAILED_TRANSACTION tier. -/
def failed_explanation (e : CombinedEntry) (status : String) : String :=
  "Description matched FAILED_TRANSACTION. phrase=\x27" ++ e.best_phrase ++
    "\x27, fuzzy=" ++ toString e.fuzzy ++ ", embed=" ++ fmt2 e.embed ++
    ". Txn status=" ++ status

/-- Explanation string of the text-based DUPLICATE_CHARGE tier. -/
def dup_text_explanation (e : CombinedEntry) : String :=
  "Description matched DUPLICATE_CHARGE keywords. phrase=\x27" ++ e.best_phrase ++
    "\x27, fuzzy=" ++ toString e.fuzzy ++ ", embed=" ++ fmt2 e.embed

/-- Explanation string of the low-confidence max-pick step. -/
def lowconf_explanation (cat : String) (e : CombinedEntry) : String :=
  "Low-confidence automatic match: chosen \x27" ++ cat ++
    "\x27 by combined score. phrase=\x27" ++ e.best_phrase ++
    "\x27, fuzzy=" ++ toString e.fuzzy ++ ", embed=" ++ fmt2 e.embed

/-- Fixed explanation of the OTHERS fallback. -/
def others_explanation : String :=
  "No strong rule or semantic/fuzzy match. Requires manual investigation."

/-- `max(combined.items(), key=...)`: first entry of maximal combined
score; `none` on the empty dict (where Python `max` raises). -/
def maxPick : List (String × CombinedEntry) → Option (String × CombinedEntry)
  | [] => none
  | p :: ps =>
    some (ps.foldl (fun best q => if best.2.combined < q.2.combined then q else best) p)

/-- `txns_df.loc[txns_df['txn_id'] == dispute['txn_id']].iloc[0]`:
the first ledger row with the dispute's transaction id; `none` models
the `IndexError` raised when no row matches. -/
def linked_txn (dispute : Dispute) (txns_df : List Transaction) : Option Transaction :=
  (txns_df.filter (fun t => t.txn_id == dispute.txn_id)).head?

/-- Steps 2..8 of the waterfall of `classify_dispute` (everything after
the metadata duplicate rule), on the lower-cased description. -/
def textResolve (o : MatchOracle) (description : String) (dispute_txn : Transaction) :
    Option (String × ℚ × String) :=
  let combined := combinedFor o description
  let fraud_combined := getCombined combined "FRAUD"
  if 0.7 ≤ fraud_combined then
    some ("FRAUD", _combined_to_confidence fraud_combined,
      fraud_explanation (getEntry combined "FRAUD"))
  else
    let refund_combined := getCombined combined "REFUND_PENDING"
    let failed_combined := getCombined combined "FAILED_TRANSACTION"
    if 0.6 ≤ refund_combined then
      some ("REFUND_PENDING", _combined_to_confidence refund_combined,
        refund_explanation (getEntry combined "REFUND_PENDING"))
    else if 0.6 ≤ failed_combined then
      let status := dispute_txn.status.toUpper
      let conf0 := _combined_to_confidence failed_combined
      let conf := if status == "FAILED" || status == "CANCELLED"
        then min (conf0 + 0.15) 0.95 else conf0
      some ("FAILED_TRANSACTION", conf,
        failed_explanation (getEntry combined "FAILED_TRANSACTION") status)
    else
      let dup_combined := getCombined combined "DUPLICATE_CHARGE"
      if 0.7 ≤ dup_combined then
        some ("DUPLICATE_CHARGE", _combined_to_confidence dup_combined,
          dup_text_explanation (getEntry combined "DUPLICATE_CHARGE"))
      else
        match maxPick combined with
        | none => none
        | some best =>
          if 0.45 ≤ best.2.combined then
            some (best.1, _combined_to_confidence best.2.combined,
              lowconf_explanation best.1 best.2)
          else
            some ("OTHERS", 0.5, others_explanation)

/-- `(dispute.get('description') or "").lower()`. -/
def descOf (dispute : Dispute) : String :=
  (dispute.description.getD "").toLower

/-- `core.classify_dispute`: metadata duplicate rule first, then the
text waterfall; `none` models the uncaught `IndexError` when the dispute
references no ledger row. -/
def classify_dispute (o : MatchOracle) (dispute : Dispute)
    (txns_df : List Transaction) : Option (String × ℚ × String) :=
  let description := descOf dispute
  match linked_txn dispute txns_df with
  | none => none
  | some dispute_txn =>
    if _find_duplicate_transactions dispute_txn txns_df 3 = true then
      some ("DUPLICATE_CHARGE", 0.95, dup_metadata_explanation)
    else
      textResolve o description dispute_txn

/-- `core.suggest_resolution`: category → (action, justification);
unknown categories fall back to the OTHERS entry. -/
def suggest_resolution (category explanation : String) : String × String :=
  let resolution_info := (lookupList RESOLUTION_MAP category).getD OTHERS_RESOLUTION
  (resolution_info.action, resolution_info.justification ++ " Reason: " ++ explanation)

/-- A row of the classification output table. -/
structure ClassificationRow where
  dispute_id : String
  predicted_category : String
  confidence : ℚ
  explanation : String
  status : String
deriving DecidableEq, Repr

/-- A row of the resolution output table. -/
structure ResolutionRow where
  dispute_id : String
  suggested_action : String
  justification : String
deriving DecidableEq, Repr

/-- The per-dispute loop of `core.process_files` over already-parsed
rows: one classification row and one resolution row per dispute, in
input order; `none` models an exception escaping the loop. -/
def process_files (o : MatchOracle) :
    List Dispute → List Transaction → Option (List ClassificationRow × List ResolutionRow)
  | [], _ => some ([], [])
  | d :: ds, txns =>
    match classify_dispute o d txns with
    | none => none
    | some (category, confidence, explanation) =>
      let ar := suggest_resolution category explanation
      match process_files o ds txns with
      | none => none
      | some (cs, rs) =>
        some (⟨d.dispute_id, category, confidence, explanation, "New"⟩ :: cs,
              ⟨d.dispute_id, ar.1, ar.2⟩ :: rs)

/-! ### Helper lemmas -/

/-- The keys of the `combined` dict are exactly the keyword-map
categories, in order. -/
theorem combinedFor_keys (o : MatchOracle) (text : String) :
    (combinedFor o text).map Prod.fst = ["FRAUD", "REFUND_PENDING", "FAILED_TRANSACTION"] :=
  rfl

/-- `DUPLICATE_CHARGE` has no keyword list, so its combined score
defaults to `0`. -/
theorem combinedScore_DUP (o : MatchOracle) (text : String) :
    combinedScore o text "DUPLICATE_CHARGE" = 0 :=
  rfl

theorem combinedScore_FRAUD (o : MatchOracle) (text : String) :
    combinedScore o text "FRAUD" =
      _combine_scores ((best_fuzzy_match o KEYWORD_MAP text "FRAUD").2 : ℚ)
        (best_embedding_score o KEYWORD_MAP text "FRAUD") 0.6 :=
  rfl

theorem combinedScore_REFUND (o : MatchOracle) (text : String) :
    combinedScore o text "REFUND_PENDING" =
      _combine_scores ((best_fuzzy_match o KEYWORD_MAP text "REFUND_PENDING").2 : ℚ)
        (best_embedding_score o KEYWORD_MAP text "REFUND_PENDING") 0.6 :=
  rfl

theorem combinedScore_FAILED (o : MatchOracle) (text : String) :
    combinedScore o text "FAILED_TRANSACTION" =
      _combine_scores ((best_fuzzy_match o KEYWORD_MAP text "FAILED_TRANSACTION").2 : ℚ)
        (best_embedding_score o KEYWORD_MAP text "FAILED_TRANSACTION") 0.6 :=
  rfl

/-- Confidence mapping lower bound. -/
theorem conf_ge_half (s : ℚ) : 1/2 ≤ _combined_to_confidence s := by
  unfold _combined_to_confidence
  have hc : 0 ≤ min (max s 0) 1 := le_min (le_max_right s 0) zero_le_one
  have h50 : (50 : ℤ) ≤ round ((0.5 + 0.45 * min (max s 0) 1) * 100) := by
    rw [round_eq, Int.le_floor]
    push_cast
    nlinarith
  have : ((50 : ℤ) : ℚ) ≤ ((round ((0.5 + 0.45 * min (max s 0) 1) * 100) : ℤ) : ℚ) := by
    exact_mod_cast h50
  linarith

/-- Confidence mapping upper bound. -/
theorem conf_le_95 (s : ℚ) : _combined_to_confidence s ≤ 0.95 := by
  unfold _combined_to_confidence
  have hc : min (max s 0) 1 ≤ 1 := min_le_right _ _
  have h95 : round ((0.5 + 0.45 * min (max s 0) 1) * 100) ≤ (95 : ℤ) := by
    rw [round_eq]
    have hlt : (0.5 + 0.45 * min (max s 0) 1) * 100 + 1/2 < ((96 : ℤ) : ℚ) := by
      push_cast
      nlinarith
    have := Int.floor_lt.mpr hlt
    omega
  have : ((round ((0.5 + 0.45 * min (max s 0) 1) * 100) : ℤ) : ℚ) ≤ ((95 : ℤ) : ℚ) := by
    exact_mod_cast h95
  norm_num at this ⊢
  linarith

theorem conf_nonneg (s : ℚ) : 0 ≤ _combined_to_confidence s :=
  le_trans (by norm_num) (conf_ge_half s)

theorem conf_le_one (s : ℚ) : _combined_to_confidence s ≤ 1 :=
  le_trans (conf_le_95 s) (by norm_num)

/-- The max-pick fold returns an element of its input. -/
theorem maxPickAux_mem (ps : List (String × CombinedEntry)) :
    ∀ a : String × CombinedEntry,
      ps.foldl (fun best q => if best.2.combined < q.2.combined then q else best) a ∈ a :: ps := by
  induction ps with
  | nil => intro a; simp
  | cons q ps ih =>
    intro a
    simp only [List.foldl_cons]
    by_cases h : a.2.combined < q.2.combined
    · rw [if_pos h]
      have := ih q
      simp only [List.mem_cons] at this ⊢
      tauto
    · rw [if_neg h]
      have := ih a
      simp only [List.mem_cons] at this ⊢
      tauto

theorem maxPick_mem {l : List (String × CombinedEntry)} {p : String × CombinedEntry}
    (h : maxPick l = some p) : p ∈ l := by
  cases l with
  | nil => simp [maxPick] at h
  | cons a ps =>
    simp only [maxPick, Option.some.injEq] at h
    have := maxPickAux_mem ps a
    rw [h] at this
    exact this

/-- If the metadata duplicate rule does not fire, the classifier is the
text waterfall on the lower-cased description. -/
theorem classify_eq_textResolve (o : MatchOracle) (d : Dispute) (txns : List Transaction)
    (t : Transaction) (h : linked_txn d txns = some t)
    (hdup : _find_duplicate_transactions t txns 3 = false) :
    classify_dispute o d txns = textResolve o (descOf d) t := by
  simp [classify_dispute, h, hdup]

/-- If the metadata duplicate rule fires, the classifier short-circuits. -/
theorem classify_eq_dup (o : MatchOracle) (d : Dispute) (txns : List Transaction)
    (t : Transaction) (h : linked_txn d txns = some t)
    (hdup : _find_duplicate_transactions t txns 3 = true) :
    classify_dispute o d txns = some ("DUPLICATE_CHARGE", 0.95, dup_metadata_explanation) := by
  simp [classify_dispute, h, hdup]

theorem textResolve_fraud (o : MatchOracle) (text : String) (t : Transaction)
    (hf : 0.7 ≤ combinedScore o text "FRAUD") :
    textResolve o text t = some ("FRAUD",
      _combined_to_confidence (combinedScore o text "FRAUD"),
      fraud_explanation (getEntry (combinedFor o text) "FRAUD")) := by
  simp only [combinedScore] at hf
  simp only [textResolve]
  rw [if_pos hf]
  rfl

theorem textResolve_refund (o : MatchOracle) (text : String) (t : Transaction)
    (hf : ¬ 0.7 ≤ combinedScore o text "FRAUD")
    (hr : 0.6 ≤ combinedScore o text "REFUND_PENDING") :
    textResolve o text t = some ("REFUND_PENDING",
      _combined_to_confidence (combinedScore o text "REFUND_PENDING"),
      refund_explanation (getEntry (combinedFor o text) "REFUND_PENDING")) := by
  simp only [combinedScore] at hf hr
  simp only [textResolve]
  rw [if_neg hf, if_pos hr]
  rfl

theorem textResolve_failed (o : MatchOracle) (text : String) (t : Transaction)
    (hf : ¬ 0.7 ≤ combinedScore o text "FRAUD")
    (hr : ¬ 0.6 ≤ combinedScore o text "REFUND_PENDING")
    (hfa : 0.6 ≤ combinedScore o text "FAILED_TRANSACTION") :
    textResolve o text t = some ("FAILED_TRANSACTION",
      (if t.status.toUpper == "FAILED" || t.status.toUpper == "CANCELLED"
       then min (_combined_to_confidence (combinedScore o text "FAILED_TRANSACTION") + 0.15) 0.95
       else _combined_to_confidence (combinedScore o text "FAILED_TRANSACTION")),
      failed_explanation (getEntry (combinedFor o text) "FAILED_TRANSACTION") t.status.toUpper) := by
  simp only [combinedScore] at hf hr hfa
  simp only [textResolve]
  rw [if_neg hf, if_neg hr, if_pos hfa]
  rfl

/-- The text-based DUPLICATE_CHARGE tier can never fire: its combined
score is always `0`. -/
theorem dup_tier_cond_false (o : MatchOracle) (text : String) :
    ¬ 0.7 ≤ combinedScore o text "DUPLICATE_CHARGE" := by
  rw [combinedScore_DUP]
  norm_num

theorem textResolve_maxpick (o : MatchOracle) (text : String) (t : Transaction)
    (best : String × CombinedEntry)
    (hf : ¬ 0.7 ≤ combinedScore o text "FRAUD")
    (hr : ¬ 0.6 ≤ combinedScore o text "REFUND_PENDING")
    (hfa : ¬ 0.6 ≤ combinedScore o text "FAILED_TRANSACTION")
    (hmax : maxPick (combinedFor o text) = some best)
    (hb : 0.45 ≤ best.2.combined) :
    textResolve o text t = some (best.1,
      _combined_to_confidence best.2.combined, lowconf_explanation best.1 best.2) := by
  have hd := dup_tier_cond_false o text
  simp only [combinedScore] at hf hr hfa hd
  simp only [textResolve]
  rw [if_neg hf, if_neg hr, if_neg hfa, if_neg hd, hmax]
  dsimp only
  rw [if_pos hb]

theorem textResolve_others (o : MatchOracle) (text : String) (t : Transaction)
    (best : String × CombinedEntry)
    (hf : ¬ 0.7 ≤ combinedScore o text "FRAUD")
    (hr : ¬ 0.6 ≤ combinedScore o text "REFUND_PENDING")
    (hfa : ¬ 0.6 ≤ combinedScore o text "FAILED_TRANSACTION")
    (hmax : maxPick (combinedFor o text) = some best)
    (hb : ¬ 0.45 ≤ best.2.combined) :
    textResolve o text t = some ("OTHERS", 0.5, others_explanation) := by
  have hd := dup_tier_cond_false o text
  simp only [combinedScore] at hf hr hfa hd
  simp only [textResolve]
  rw [if_neg hf, if_neg hr, if_neg hfa, if_neg hd, hmax]
  dsimp only
  rw [if_neg hb]

/-- The max-pick step always has a candidate (the `combined` dict is
never empty). -/
theorem maxPick_combinedFor_isSome (o : MatchOracle) (text : String) :
    ∃ best, maxPick (combinedFor o text) = some best :=
  ⟨_, rfl⟩

/-- The closed category enum of the output. -/
def CATEGORY_ENUM : List String :=
  ["FRAUD", "DUPLICATE_CHARGE", "REFUND_PENDING", "FAILED_TRANSACTION", "OTHERS"]

/-- Every classification the waterfall can produce has a category in the
closed enum and a confidence in `[0, 1]`. -/
theorem classify_shape (o : MatchOracle) (d : Dispute) (txns : List Transaction)
    (c : String) (q : ℚ) (e : String)
    (h : classify_dispute o d txns = some (c, q, e)) :
    c ∈ CATEGORY_ENUM ∧ 0 ≤ q ∧ q ≤ 1 := by
  cases hl : linked_txn d txns with
  | none => simp [classify_dispute, hl] at h
  | some t =>
    cases hdup : _find_duplicate_transactions t txns 3 with
    | true =>
      rw [classify_eq_dup o d txns t hl hdup] at h
      obtain ⟨hc, hq, he⟩ : c = "DUPLICATE_CHARGE" ∧ q = 0.95 ∧ e = dup_metadata_explanation := by
        simpa [eq_comm] using h
      subst hc; subst hq
      refine ⟨by simp [CATEGORY_ENUM], by norm_num, by norm_num⟩
    | false =>
      rw [classify_eq_textResolve o d txns t hl hdup] at h
      by_cases hf : 0.7 ≤ combinedScore o (descOf d) "FRAUD"
      · rw [textResolve_fraud o (descOf d) t hf] at h
        obtain ⟨hc, hq, he⟩ :
            c = "FRAUD" ∧ q = _combined_to_confidence (combinedScore o (descOf d) "FRAUD") ∧
              e = fraud_explanation (getEntry (combinedFor o (descOf d)) "FRAUD") := by
          simpa [eq_comm] using h
        subst hc; subst hq
        exact ⟨by simp [CATEGORY_ENUM], conf_nonneg _, conf_le_one _⟩
      · by_cases hr : 0.6 ≤ combinedScore o (descOf d) "REFUND_PENDING"
        · rw [textResolve_refund o (descOf d) t hf hr] at h
          obtain ⟨hc, hq, he⟩ :
              c = "REFUND_PENDING" ∧
                q = _combined_to_confidence (combinedScore o (descOf d) "REFUND_PENDING") ∧
                e = refund_explanation (getEntry (combinedFor o (descOf d)) "REFUND_PENDING") := by
            simpa [eq_comm] using h
          subst hc; subst hq
          exact ⟨by simp [CATEGORY_ENUM], conf_nonneg _, conf_le_one _⟩
        · by_cases hfa : 0.6 ≤ combinedScore o (descOf d) "FAILED_TRANSACTION"
          · rw [textResolve_failed o (descOf d) t hf hr hfa] at h
            set s := combinedScore o (descOf d) "FAILED_TRANSACTION" with hs
            obtain ⟨hc, hq, he⟩ :
                c = "FAILED_TRANSACTION" ∧
                  q = (if t.status.toUpper == "FAILED" || t.status.toUpper == "CANCELLED"
                       then min (_combined_to_confidence s + 0.15) 0.95
                       else _combined_to_confidence s) ∧
                  e = failed_explanation (getEntry (combinedFor o (descOf d)) "FAILED_TRANSACTION")
                        t.status.toUpper := by
              have h2 := h.symm
              rw [Option.some.injEq, Prod.mk.injEq, Prod.mk.injEq] at h2
              exact ⟨h2.1, h2.2.1, h2.2.2⟩
            subst hc; subst hq
            refine ⟨by simp [CATEGORY_ENUM], ?_, ?_⟩
            · split
              · exact le_min (by linarith [conf_nonneg s]) (by norm_num)
              · exact conf_nonneg s
            · split
              · exact le_trans (min_le_right _ _) (by norm_num)
              · exact conf_le_one s
          · obtain ⟨best, hmax⟩ := maxPick_combinedFor_isSome o (descOf d)
            have hbestmem : best.1 ∈ ["FRAUD", "REFUND_PENDING", "FAILED_TRANSACTION"] := by
              have hm := maxPick_mem hmax
              have : best.1 ∈ (combinedFor o (descOf d)).map Prod.fst :=
                List.mem_map_of_mem Prod.fst hm
              rwa [combinedFor_keys] at this
            by_cases hb : 0.45 ≤ best.2.combined
            · rw [textResolve_maxpick o (descOf d) t best hf hr hfa hmax hb] at h
              obtain ⟨hc, hq, he⟩ :
                  c = best.1 ∧ q = _combined_to_confidence best.2.combined ∧
                    e = lowconf_explanation best.1 best.2 := by
                simpa [eq_comm] using h
              subst hc; subst hq
              refine ⟨?_, conf_nonneg _, conf_le_one _⟩
              simp only [CATEGORY_ENUM, List.mem_cons] at hbestmem ⊢
              tauto
            · rw [textResolve_others o (descOf d) t best hf hr hfa hmax hb] at h
              obtain ⟨hc, hq, he⟩ : c = "OTHERS" ∧ q = 0.5 ∧ e = others_explanation := by
                simpa [eq_comm] using h
              subst hc; subst hq
              exact ⟨by simp [CATEGORY_ENUM], by norm_num, by norm_num⟩

/-- Structure of a successful pipeline run: the two output tables carry
the input disputes' ids in input order, and every classification row was
produced by `classify_dispute` for its dispute. -/
theorem process_files_spec (o : MatchOracle) (txns : List Transaction) :
    ∀ (ds : List Dispute) (cs : List ClassificationRow) (rs : List ResolutionRow),
      process_files o ds txns = some (cs, rs) →
      cs.map ClassificationRow.dispute_id = ds.map Dispute.dispute_id ∧
      rs.map ResolutionRow.dispute_id = ds.map Dispute.dispute_id ∧
      (∀ row ∈ cs, row.predicted_category ∈ CATEGORY_ENUM ∧
        0 ≤ row.confidence ∧ row.confidence ≤ 1 ∧ row.status = "New") := by
  intro ds
  induction ds with
  | nil =>
    intro cs rs h
    obtain ⟨hc, hr⟩ : [] = cs ∧ [] = rs := by simpa [process_files, eq_comm] using h
    subst hc; subst hr
    simp
  | cons d ds ih =>
    intro cs rs h
    simp only [process_files] at h
    cases hcl : classify_dispute o d txns with
    | none => rw [hcl] at h; simp at h
    | some res =>
      obtain ⟨cat, conf, expl⟩ := res
      rw [hcl] at h
      cases hrec : process_files o ds txns with
      | none => rw [hrec] at h; simp at h
      | some p =>
        obtain ⟨cs', rs'⟩ := p
        rw [hrec] at h
        simp only [Option.some.injEq, Prod.mk.injEq] at h
        obtain ⟨hc, hr⟩ := h
        subst hc; subst hr
        obtain ⟨h1, h2, h3⟩ := ih cs' rs' hrec
        refine ⟨by simp [h1], by simp [h2], ?_⟩
        intro row hrow
        rcases List.mem_cons.mp hrow with hhead | htail
        · subst hhead
          have := classify_shape o d txns cat conf expl hcl
          exact ⟨this.1, this.2.1, this.2.2, rfl⟩
        · exact h3 row htail

/-! ### Concrete fixtures used by witnesses and counterexamples -/

/-- Oracle with the fuzzy matcher returning 0 everywhere and the
embedding model unavailable. -/
def oZ : MatchOracle := ⟨fun _ _ => 0, false, fun _ _ => 0⟩

/-- Oracle matching only the phrase "fraud" lexically, embeddings all 1. -/
def oF : MatchOracle := ⟨fun _ p => if p == "fraud" then 100 else 0, true, fun _ _ => 1⟩

/-- Oracle matching the phrases "refund" and "failed" perfectly, embeddings off. -/
def oRF : MatchOracle :=
  ⟨fun _ p => if p == "refund" || p == "failed" then 100 else 0, false, fun _ _ => 0⟩

/-- Oracle matching only the phrase "failed" perfectly, embeddings off. -/
def oFa : MatchOracle := ⟨fun _ p => if p == "failed" then 100 else 0, false, fun _ _ => 0⟩

/-- Oracle matching only the phrase "refund" perfectly, embeddings off. -/
def oR : MatchOracle := ⟨fun _ p => if p == "refund" then 100 else 0, false, fun _ _ => 0⟩

/-- Oracle with every fuzzy score 100 and every embedding score 1. -/
def oT : MatchOracle := ⟨fun _ _ => 100, true, fun _ _ => 1⟩

/-- Oracle for the C8 counterexample: lexically the description matches
"refund" perfectly and everything else at 60; semantically it is close
to every phrase. -/
def oE : MatchOracle := ⟨fun _ p => if p == "refund" then 100 else 60, true, fun _ _ => 1⟩

def tB : Transaction := ⟨"T1", "C1", 100, 0, "SUCCESS"⟩
def txnsB : List Transaction := [tB]
def dB : Dispute := ⟨"D1", some "x", "T1", 0⟩

def tF : Transaction := ⟨"T1", "C1", 100, 0, "FAILED"⟩
def txnsF : List Transaction := [tF]

/-- Duplicate scenario: same customer, same amount, different ids, 2
minutes apart. -/
def txnsA : List Transaction :=
  [⟨"T1", "C1", 500, 0, "SUCCESS"⟩, ⟨"T2", "C1", 500, 120, "SUCCESS"⟩]
def tA : Transaction := ⟨"T2", "C1", 500, 120, "SUCCESS"⟩
def dA : Dispute := ⟨"D1", some "x", "T2", 0⟩

/-- A dispute row whose description column is missing. -/
def dNone : Dispute := ⟨"D1", none, "T1", 0⟩

theorem foldl_max_replicate (c : ℚ) (n : ℕ) : (List.replicate n c).foldl max c = c := by
  induction n with
  | zero => rfl
  | succ n ih => rw [List.replicate_succ, List.foldl_cons, max_self]; exact ih

/-- Evaluation of the embedding score when the model is available and
the oracle's similarity is constant on the text. -/
theorem best_embedding_const (o : MatchOracle) (text cat : String) (c : ℚ)
    (ha : o.embed_available = true) (hc : ∀ p, o.embedScore text p = c)
    (phrases : List String) (hkm : lookupList KEYWORD_MAP cat = some phrases)
    (hne : phrases ≠ []) :
    best_embedding_score o KEYWORD_MAP text cat = c := by
  have hfun : o.embedScore text = fun _ => c := funext hc
  simp only [best_embedding_score, ha, hkm]
  cases phrases with
  | nil => cases hne rfl
  | cons p ps =>
    rw [hfun]
    simp only [List.map_cons, List.map_const']
    exact foldl_max_replicate c ps.length

/-! ### The claims -/

/-- C1: a dispute's linked transaction has a metadata duplicate exactly
when the ledger holds another transaction (different id) of the same
customer with the identical amount within 3 minutes (inclusive, past or
future); when it does, the dispute is classified DUPLICATE_CHARGE with
confidence exactly 0.95 and the fixed explanation, regardless of the
description text and of the text scores; when it does not, the duplicate
rule does not fire and the result comes from the text waterfall. -/
theorem claim_C1 (o : MatchOracle) (d : Dispute) (txns : List Transaction)
    (t : Transaction) (h : linked_txn d txns = some t) :
    (_find_duplicate_transactions t txns 3 = true ↔
      ∃ r ∈ txns, r.customer_id = t.customer_id ∧ r.amount = t.amount ∧
        r.txn_id ≠ t.txn_id ∧ |t.timestamp - r.timestamp| ≤ 3 * 60) ∧
    (_find_duplicate_transactions t txns 3 = true →
      classify_dispute o d txns = some ("DUPLICATE_CHARGE", 0.95, dup_metadata_explanation)) ∧
    (_find_duplicate_transactions t txns 3 = false →
      classify_dispute o d txns = textResolve o (descOf d) t) := by
  refine ⟨?_, fun hdup => classify_eq_dup o d txns t h hdup,
    fun hdup => classify_eq_textResolve o d txns t h hdup⟩
  simp only [_find_duplicate_transactions, List.any_eq_true, List.mem_filter,
    Bool.and_eq_true, beq_iff_eq, bne_iff_ne, decide_eq_true_eq]
  aesop

/-- Witness for C1: two transactions of customer C1 for 500, 2 minutes
apart; the dispute on the later one is classified DUPLICATE_CHARGE. -/
theorem claim_C1_witness :
    classify_dispute oZ dA txnsA = some ("DUPLICATE_CHARGE", 0.95, dup_metadata_explanation) :=
  (claim_C1 oZ dA txnsA tA (by decide)).2.1 (by decide)

/-- C3: with no metadata duplicate, a FRAUD combined score of at least
0.70 forces the FRAUD classification (whatever the other categories
score), with confidence round(0.5 + 0.45 * clamp(score, 0, 1), 2). -/
theorem claim_C3 (o : MatchOracle) (d : Dispute) (txns : List Transaction)
    (t : Transaction) (h : linked_txn d txns = some t)
    (hdup : _find_duplicate_transactions t txns 3 = false)
    (hf : 0.7 ≤ combinedScore o (descOf d) "FRAUD") :
    classify_dispute o d txns = some ("FRAUD",
      _combined_to_confidence (combinedScore o (descOf d) "FRAUD"),
      fraud_explanation (getEntry (combinedFor o (descOf d)) "FRAUD")) ∧
    _combined_to_confidence (combinedScore o (descOf d) "FRAUD") =
      ((round ((0.5 + 0.45 * min (max (combinedScore o (descOf d) "FRAUD") 0) 1) * 100) : ℤ) : ℚ)
        / 100 := by
  constructor
  · rw [classify_eq_textResolve o d txns t h hdup]
    exact textResolve_fraud o (descOf d) t hf
  · rfl

/-- Witness for C3: on the `oF` oracle FRAUD scores 1.0 while
REFUND_PENDING also scores below threshold; FRAUD wins. -/
theorem claim_C3_witness :
    classify_dispute oF dB txnsB = some ("FRAUD",
      _combined_to_confidence (combinedScore oF (descOf dB) "FRAUD"),
      fraud_explanation (getEntry (combinedFor oF (descOf dB)) "FRAUD")) ∧
    _combined_to_confidence (combinedScore oF (descOf dB) "FRAUD") =
      ((round ((0.5 + 0.45 * min (max (combinedScore oF (descOf dB) "FRAUD") 0) 1) * 100) : ℤ) : ℚ)
        / 100 :=
  claim_C3 oF dB txnsB tB (by decide) (by decide) (by
    rw [combinedScore_FRAUD,
      show (best_fuzzy_match oF KEYWORD_MAP (descOf dB) "FRAUD").2 = 100 from by decide,
      best_embedding_const oF (descOf dB) "FRAUD" 1 rfl (fun _ => rfl) _ rfl (by decide)]
    norm_num [_combine_scores])

/-- C4: with no metadata duplicate and FRAUD below 0.70, whenever both
REFUND_PENDING and FAILED_TRANSACTION reach 0.60 the result is
REFUND_PENDING, never FAILED_TRANSACTION. -/
theorem claim_C4 (o : MatchOracle) (d : Dispute) (txns : List Transaction)
    (t : Transaction) (h : linked_txn d txns = some t)
    (hdup : _find_duplicate_transactions t txns 3 = false)
    (hf : ¬ 0.7 ≤ combinedScore o (descOf d) "FRAUD")
    (hr : 0.6 ≤ combinedScore o (descOf d) "REFUND_PENDING")
    (_hfa : 0.6 ≤ combinedScore o (descOf d) "FAILED_TRANSACTION") :
    classify_dispute o d txns = some ("REFUND_PENDING",
      _combined_to_confidence (combinedScore o (descOf d) "REFUND_PENDING"),
      refund_explanation (getEntry (combinedFor o (descOf d)) "REFUND_PENDING")) := by
  rw [classify_eq_textResolve o d txns t h hdup]
  exact textResolve_refund o (descOf d) t hf hr

/-- Witness for C4: the `oRF` oracle scores both REFUND_PENDING and
FAILED_TRANSACTION at exactly 0.6; REFUND_PENDING wins. -/
theorem claim_C4_witness :
    classify_dispute oRF dB txnsB = some ("REFUND_PENDING",
      _combined_to_confidence (combinedScore oRF (descOf dB) "REFUND_PENDING"),
      refund_explanation (getEntry (combinedFor oRF (descOf dB)) "REFUND_PENDING")) :=
  claim_C4 oRF dB txnsB tB (by decide) (by decide)
    (by
      rw [combinedScore_FRAUD,
        show (best_fuzzy_match oRF KEYWORD_MAP (descOf dB) "FRAUD").2 = 0 from by decide,
        show best_embedding_score oRF KEYWORD_MAP (descOf dB) "FRAUD" = 0 from rfl]
      norm_num [_combine_scores])
    (by
      rw [combinedScore_REFUND,
        show (best_fuzzy_match oRF KEYWORD_MAP (descOf dB) "REFUND_PENDING").2 = 100 from by decide,
        show best_embedding_score oRF KEYWORD_MAP (descOf dB) "REFUND_PENDING" = 0 from rfl]
      norm_num [_combine_scores])
    (by
      rw [combinedScore_FAILED,
        show (best_fuzzy_match oRF KEYWORD_MAP (descOf dB) "FAILED_TRANSACTION").2 = 100
          from by decide,
        show best_embedding_score oRF KEYWORD_MAP (descOf dB) "FAILED_TRANSACTION" = 0 from rfl]
      norm_num [_combine_scores])

/-- C5: when the FAILED_TRANSACTION tier fires, the confidence is the
mapped value bumped by exactly +0.15 and capped at 0.95 precisely when
the linked transaction's (upper-cased) status is FAILED or CANCELLED,
and exactly the unbumped mapped value otherwise. -/
theorem claim_C5 (o : MatchOracle) (d : Dispute) (txns : List Transaction)
    (t : Transaction) (h : linked_txn d txns = some t)
    (hdup : _find_duplicate_transactions t txns 3 = false)
    (hf : ¬ 0.7 ≤ combinedScore o (descOf d) "FRAUD")
    (hr : ¬ 0.6 ≤ combinedScore o (descOf d) "REFUND_PENDING")
    (hfa : 0.6 ≤ combinedScore o (descOf d) "FAILED_TRANSACTION") :
    classify_dispute o d txns = some ("FAILED_TRANSACTION",
      (if t.status.toUpper == "FAILED" || t.status.toUpper == "CANCELLED"
       then min (_combined_to_confidence (combinedScore o (descOf d) "FAILED_TRANSACTION") + 0.15)
              0.95
       else _combined_to_confidence (combinedScore o (descOf d) "FAILED_TRANSACTION")),
      failed_explanation (getEntry (combinedFor o (descOf d)) "FAILED_TRANSACTION")
        t.status.toUpper) := by
  rw [classify_eq_textResolve o d txns t h hdup]
  exact textResolve_failed o (descOf d) t hf hr hfa

/-- Witness for C5: the `oFa` oracle scores only FAILED_TRANSACTION at
0.6, on a transaction whose status is FAILED. -/
theorem claim_C5_witness :
    classify_dispute oFa dB txnsF = some ("FAILED_TRANSACTION",
      (if tF.status.toUpper == "FAILED" || tF.status.toUpper == "CANCELLED"
       then min (_combined_to_confidence (combinedScore oFa (descOf dB) "FAILED_TRANSACTION")
              + 0.15) 0.95
       else _combined_to_confidence (combinedScore oFa (descOf dB) "FAILED_TRANSACTION")),
      failed_explanation (getEntry (combinedFor oFa (descOf dB)) "FAILED_TRANSACTION")
        tF.status.toUpper) :=
  claim_C5 oFa dB txnsF tF (by decide) (by decide)
    (by
      rw [combinedScore_FRAUD,
        show (best_fuzzy_match oFa KEYWORD_MAP (descOf dB) "FRAUD").2 = 0 from by decide,
        show best_embedding_score oFa KEYWORD_MAP (descOf dB) "FRAUD" = 0 from rfl]
      norm_num [_combine_scores])
    (by
      rw [combinedScore_REFUND,
        show (best_fuzzy_match oFa KEYWORD_MAP (descOf dB) "REFUND_PENDING").2 = 0 from by decide,
        show best_embedding_score oFa KEYWORD_MAP (descOf dB) "REFUND_PENDING" = 0 from rfl]
      norm_num [_combine_scores])
    (by
      rw [combinedScore_FAILED,
        show (best_fuzzy_match oFa KEYWORD_MAP (descOf dB) "FAILED_TRANSACTION").2 = 100
          from by decide,
        show best_embedding_score oFa KEYWORD_MAP (descOf dB) "FAILED_TRANSACTION" = 0 from rfl]
      norm_num [_combine_scores])

/-- Exhaustive analysis of the categories DUPLICATE_CHARGE and OTHERS:
the former only ever comes from the metadata rule (with the fixed
confidence and explanation), the latter only from the final fallback. -/
theorem classify_cases (o : MatchOracle) (d : Dispute) (txns : List Transaction)
    (c : String) (q : ℚ) (e : String)
    (h : classify_dispute o d txns = some (c, q, e)) :
    (c = "DUPLICATE_CHARGE" → q = 0.95 ∧ e = dup_metadata_explanation) ∧
    (c = "OTHERS" → q = 0.5 ∧ e = others_explanation) := by
  cases hl : linked_txn d txns with
  | none => simp [classify_dispute, hl] at h
  | some t =>
    cases hdup : _find_duplicate_transactions t txns 3 with
    | true =>
      rw [classify_eq_dup o d txns t hl hdup] at h
      obtain ⟨hc, hq, he⟩ : c = "DUPLICATE_CHARGE" ∧ q = 0.95 ∧ e = dup_metadata_explanation := by
        simpa [eq_comm] using h
      subst hc
      exact ⟨fun _ => ⟨hq, he⟩, fun hx => by simp at hx⟩
    | false =>
      rw [classify_eq_textResolve o d txns t hl hdup] at h
      by_cases hf : 0.7 ≤ combinedScore o (descOf d) "FRAUD"
      · rw [textResolve_fraud o (descOf d) t hf] at h
        have hc : c = "FRAUD" := by
          have h2 := h.symm
          rw [Option.some.injEq, Prod.mk.injEq] at h2
          exact h2.1
        subst hc
        exact ⟨fun hx => by simp at hx, fun hx => by simp at hx⟩
      · by_cases hr : 0.6 ≤ combinedScore o (descOf d) "REFUND_PENDING"
        · rw [textResolve_refund o (descOf d) t hf hr] at h
          have hc : c = "REFUND_PENDING" := by
            have h2 := h.symm
            rw [Option.some.injEq, Prod.mk.injEq] at h2
            exact h2.1
          subst hc
          exact ⟨fun hx => by simp at hx, fun hx => by simp at hx⟩
        · by_cases hfa : 0.6 ≤ combinedScore o (descOf d) "FAILED_TRANSACTION"
          · rw [textResolve_failed o (descOf d) t hf hr hfa] at h
            have hc : c = "FAILED_TRANSACTION" := by
              have h2 := h.symm
              rw [Option.some.injEq, Prod.mk.injEq] at h2
              exact h2.1
            subst hc
            exact ⟨fun hx => by simp at hx, fun hx => by simp at hx⟩
          · obtain ⟨best, hmax⟩ := maxPick_combinedFor_isSome o (descOf d)
            have hbestmem : best.1 ∈ ["FRAUD", "REFUND_PENDING", "FAILED_TRANSACTION"] := by
              have hm := maxPick_mem hmax
              have : best.1 ∈ (combinedFor o (descOf d)).map Prod.fst :=
                List.mem_map_of_mem Prod.fst hm
              rwa [combinedFor_keys] at this
            by_cases hb : 0.45 ≤ best.2.combined
            · rw [textResolve_maxpick o (descOf d) t best hf hr hfa hmax hb] at h
              have hc : c = best.1 := by
                have h2 := h.symm
                rw [Option.some.injEq, Prod.mk.injEq] at h2
                exact h2.1
              subst hc
              constructor
              · intro hx
                rw [hx] at hbestmem
                simp at hbestmem
              · intro hx
                rw [hx] at hbestmem
                simp at hbestmem
            · rw [textResolve_others o (descOf d) t best hf hr hfa hmax hb] at h
              obtain ⟨hc, hq, he⟩ : c = "OTHERS" ∧ q = 0.5 ∧ e = others_explanation := by
                simpa [eq_comm] using h
              subst hc
              exact ⟨fun hx => by simp at hx, fun _ => ⟨hq, he⟩⟩

/-- A dispute explicitly about a duplicate charge, for C2. -/
def dT : Dispute := ⟨"D2", some "duplicate charge billed twice", "T1", 0⟩

/-- Counterexample to C2: even with every fuzzy score at 100 and every
embedding similarity at 1, the resolver computes combined scores only
for FRAUD, REFUND_PENDING and FAILED_TRANSACTION — DUPLICATE_CHARGE is
not among the scored categories, its text score is 0, and the dispute
about a duplicate charge is classified FRAUD, not DUPLICATE_CHARGE. -/
theorem claim_C2_counterexample :
    combinedScore oT (descOf dT) "DUPLICATE_CHARGE" = 0 ∧
    (combinedFor oT (descOf dT)).map Prod.fst =
      ["FRAUD", "REFUND_PENDING", "FAILED_TRANSACTION"] ∧
    (classify_dispute oT dT txnsB).map (fun r => r.1) = some "FRAUD" := by
  have hfT : (0.7 : ℚ) ≤ combinedScore oT (descOf dT) "FRAUD" := by
    rw [combinedScore_FRAUD,
      show (best_fuzzy_match oT KEYWORD_MAP (descOf dT) "FRAUD").2 = 100 from by decide,
      best_embedding_const oT (descOf dT) "FRAUD" 1 rfl (fun _ => rfl) _ rfl (by decide)]
    norm_num [_combine_scores]
  refine ⟨combinedScore_DUP _ _, combinedFor_keys _ _, ?_⟩
  rw [classify_eq_textResolve oT dT txnsB tB (by decide) (by decide),
    textResolve_fraud oT (descOf dT) tB hfT]
  rfl

/-- C2 amended: the resolver computes combined scores only for the
categories of the keyword map (FRAUD, REFUND_PENDING,
FAILED_TRANSACTION); DUPLICATE_CHARGE's text-based combined score is
always 0, so the text tier never fires, and every DUPLICATE_CHARGE
classification comes from the metadata rule with confidence 0.95 and
the fixed explanation. -/
theorem claim_C2_amended (o : MatchOracle) (text : String) (d : Dispute)
    (txns : List Transaction) (c : String) (q : ℚ) (e : String)
    (h : classify_dispute o d txns = some (c, q, e)) (hc : c = "DUPLICATE_CHARGE") :
    (combinedFor o text).map Prod.fst = ["FRAUD", "REFUND_PENDING", "FAILED_TRANSACTION"] ∧
    combinedScore o text "DUPLICATE_CHARGE" = 0 ∧
    q = 0.95 ∧ e = dup_metadata_explanation := by
  obtain ⟨hq, he⟩ := (classify_cases o d txns c q e h).1 hc
  exact ⟨combinedFor_keys o text, combinedScore_DUP o text, hq, he⟩

/-- Witness for the amended C2, on the metadata-duplicate scenario. -/
theorem claim_C2_amended_witness :
    (combinedFor oZ "x").map Prod.fst = ["FRAUD", "REFUND_PENDING", "FAILED_TRANSACTION"] ∧
    combinedScore oZ "x" "DUPLICATE_CHARGE" = 0 ∧
    (0.95 : ℚ) = 0.95 ∧ dup_metadata_explanation = dup_metadata_explanation :=
  claim_C2_amended oZ "x" dA txnsA "DUPLICATE_CHARGE" 0.95 dup_metadata_explanation
    (classify_eq_dup oZ dA txnsA tA (by decide) (by decide)) rfl

/-- C10: OTHERS is never chosen by the max-pick step (the arg-max ranges
over the keyword-map categories only), and an OTHERS classification
always carries confidence exactly 0.5 and the fixed manual-investigation
explanation. -/
theorem claim_C10 (o : MatchOracle) (d : Dispute) (txns : List Transaction)
    (c : String) (q : ℚ) (e : String)
    (h : classify_dispute o d txns = some (c, q, e)) (hc : c = "OTHERS") :
    q = 0.5 ∧ e = others_explanation ∧
    ∀ text best, maxPick (combinedFor o text) = some best →
      best.1 ∈ ["FRAUD", "REFUND_PENDING", "FAILED_TRANSACTION"] ∧ best.1 ≠ "OTHERS" := by
  obtain ⟨hq, he⟩ := (classify_cases o d txns c q e h).2 hc
  refine ⟨hq, he, fun text best hmax => ?_⟩
  have hm : best.1 ∈ (combinedFor o text).map Prod.fst :=
    List.mem_map_of_mem Prod.fst (maxPick_mem hmax)
  rw [combinedFor_keys] at hm
  refine ⟨hm, ?_⟩
  simp only [List.mem_cons, List.not_mem_nil, or_false] at hm
  rcases hm with h1 | h1 | h1 <;> rw [h1] <;> decide

/-- The entry the all-zero oracle produces for each category. -/
def eZ (p : String) : CombinedEntry := ⟨_combine_scores ((0 : ℕ) : ℚ) 0 0.6, 0, 0, p⟩

/-- Witness for C10: the all-zero oracle sends every dispute to the
OTHERS fallback. -/
theorem claim_C10_witness :
    (0.5 : ℚ) = 0.5 ∧ others_explanation = others_explanation ∧
    ∀ text best, maxPick (combinedFor oZ text) = some best →
      best.1 ∈ ["FRAUD", "REFUND_PENDING", "FAILED_TRANSACTION"] ∧ best.1 ≠ "OTHERS" := by
  have hstruct : combinedFor oZ (descOf dB) =
      [("FRAUD", eZ "fraud"), ("REFUND_PENDING", eZ "refund"),
       ("FAILED_TRANSACTION", eZ "failed")] := rfl
  have hf : ¬ (0.7 : ℚ) ≤ combinedScore oZ (descOf dB) "FRAUD" := by
    rw [combinedScore_FRAUD,
      show (best_fuzzy_match oZ KEYWORD_MAP (descOf dB) "FRAUD").2 = 0 from by decide,
      show best_embedding_score oZ KEYWORD_MAP (descOf dB) "FRAUD" = 0 from rfl]
    norm_num [_combine_scores]
  have hr : ¬ (0.6 : ℚ) ≤ combinedScore oZ (descOf dB) "REFUND_PENDING" := by
    rw [combinedScore_REFUND,
      show (best_fuzzy_match oZ KEYWORD_MAP (descOf dB) "REFUND_PENDING").2 = 0 from by decide,
      show best_embedding_score oZ KEYWORD_MAP (descOf dB) "REFUND_PENDING" = 0 from rfl]
    norm_num [_combine_scores]
  have hfa : ¬ (0.6 : ℚ) ≤ combinedScore oZ (descOf dB) "FAILED_TRANSACTION" := by
    rw [combinedScore_FAILED,
      show (best_fuzzy_match oZ KEYWORD_MAP (descOf dB) "FAILED_TRANSACTION").2 = 0 from by decide,
      show best_embedding_score oZ KEYWORD_MAP (descOf dB) "FAILED_TRANSACTION" = 0 from rfl]
    norm_num [_combine_scores]
  have hmax : maxPick (combinedFor oZ (descOf dB)) = some ("FRAUD", eZ "fraud") := by
    rw [hstruct]
    simp only [maxPick, List.foldl]
    norm_num [eZ, _combine_scores]
  have hb : ¬ (0.45 : ℚ) ≤ ("FRAUD", eZ "fraud").2.combined := by
    norm_num [eZ, _combine_scores]
  have hcl : classify_dispute oZ dB txnsB = some ("OTHERS", 0.5, others_explanation) := by
    rw [classify_eq_textResolve oZ dB txnsB tB (by decide) (by decide)]
    exact textResolve_others oZ (descOf dB) tB ("FRAUD", eZ "fraud") hf hr hfa hmax hb
  exact claim_C10 oZ dB txnsB "OTHERS" 0.5 others_explanation hcl rfl

/-- C6: every successful batch run yields exactly one classification
row and one resolution row per dispute, in input order and keyed by the
dispute's id, with the predicted category in the closed enum and the
confidence in [0, 1]. -/
theorem claim_C6 (o : MatchOracle) (ds : List Dispute) (txns : List Transaction)
    (cs : List ClassificationRow) (rs : List ResolutionRow)
    (h : process_files o ds txns = some (cs, rs)) :
    cs.length = ds.length ∧ rs.length = ds.length ∧
    cs.map ClassificationRow.dispute_id = ds.map Dispute.dispute_id ∧
    rs.map ResolutionRow.dispute_id = ds.map Dispute.dispute_id ∧
    ∀ row ∈ cs, row.predicted_category ∈ CATEGORY_ENUM ∧
      0 ≤ row.confidence ∧ row.confidence ≤ 1 := by
  obtain ⟨h1, h2, h3⟩ := process_files_spec o txns ds cs rs h
  refine ⟨?_, ?_, h1, h2, fun row hrow =>
    ⟨(h3 row hrow).1, (h3 row hrow).2.1, (h3 row hrow).2.2.1⟩⟩
  · have := congrArg List.length h1
    simpa using this
  · have := congrArg List.length h2
    simpa using this

/-- C9: the pipeline is deterministic — a second run on the same inputs
returns the same tables — and output rows are in input dispute order. -/
theorem claim_C9 (o : MatchOracle) (ds : List Dispute) (txns : List Transaction)
    (cs : List ClassificationRow) (rs : List ResolutionRow)
    (h : process_files o ds txns = some (cs, rs)) :
    process_files o ds txns = some (cs, rs) ∧
    cs.map ClassificationRow.dispute_id = ds.map Dispute.dispute_id ∧
    rs.map ResolutionRow.dispute_id = ds.map Dispute.dispute_id :=
  ⟨h, (process_files_spec o txns ds cs rs h).1, (process_files_spec o txns ds cs rs h).2.1⟩

/-- Confidence the `oR` oracle gives the witness dispute. -/
def confW : ℚ := _combined_to_confidence (combinedScore oR (descOf dB) "REFUND_PENDING")

/-- Explanation the `oR` oracle gives the witness dispute. -/
def explW : String := refund_explanation (getEntry (combinedFor oR (descOf dB)) "REFUND_PENDING")

def csW : List ClassificationRow := [⟨"D1", "REFUND_PENDING", confW, explW, "New"⟩]

def rsW : List ResolutionRow :=
  [⟨"D1", "Escalate to bank",
    "Customer is waiting for a refund. Trace status with payment gateway or bank. Reason: "
      ++ explW⟩]

theorem oR_hf : ¬ (0.7 : ℚ) ≤ combinedScore oR (descOf dB) "FRAUD" := by
  rw [combinedScore_FRAUD,
    show (best_fuzzy_match oR KEYWORD_MAP (descOf dB) "FRAUD").2 = 0 from by decide,
    show best_embedding_score oR KEYWORD_MAP (descOf dB) "FRAUD" = 0 from rfl]
  norm_num [_combine_scores]

theorem oR_hr : (0.6 : ℚ) ≤ combinedScore oR (descOf dB) "REFUND_PENDING" := by
  rw [combinedScore_REFUND,
    show (best_fuzzy_match oR KEYWORD_MAP (descOf dB) "REFUND_PENDING").2 = 100 from by decide,
    show best_embedding_score oR KEYWORD_MAP (descOf dB) "REFUND_PENDING" = 0 from rfl]
  norm_num [_combine_scores]

/-- Concrete one-dispute pipeline run used by the C6 and C9 witnesses. -/
theorem process_run_W : process_files oR [dB] txnsB = some (csW, rsW) := by
  have hcl : classify_dispute oR dB txnsB = some ("REFUND_PENDING", confW, explW) := by
    rw [classify_eq_textResolve oR dB txnsB tB (by decide) (by decide)]
    exact textResolve_refund oR (descOf dB) tB oR_hf oR_hr
  simp only [process_files, hcl]
  simp [suggest_resolution, lookupList, RESOLUTION_MAP, csW, rsW, dB]

/-- Witness for C6: a one-dispute run. -/
theorem claim_C6_witness :
    csW.length = [dB].length ∧ rsW.length = [dB].length ∧
    csW.map ClassificationRow.dispute_id = [dB].map Dispute.dispute_id ∧
    rsW.map ResolutionRow.dispute_id = [dB].map Dispute.dispute_id ∧
    ∀ row ∈ csW, row.predicted_category ∈ CATEGORY_ENUM ∧
      0 ≤ row.confidence ∧ row.confidence ≤ 1 :=
  claim_C6 oR [dB] txnsB csW rsW process_run_W

/-- Witness for C9: the same run, rerun. -/
theorem claim_C9_witness :
    process_files oR [dB] txnsB = some (csW, rsW) ∧
    csW.map ClassificationRow.dispute_id = [dB].map Dispute.dispute_id ∧
    rsW.map ResolutionRow.dispute_id = [dB].map Dispute.dispute_id :=
  claim_C9 oR [dB] txnsB csW rsW process_run_W

/-- If some dispute references a transaction absent from the ledger, the
whole run aborts (no partial output). -/
theorem process_files_none (o : MatchOracle) (txns : List Transaction) :
    ∀ (ds : List Dispute) (d : Dispute), d ∈ ds → linked_txn d txns = none →
      process_files o ds txns = none := by
  intro ds
  induction ds with
  | nil => intro d hd; cases hd
  | cons d' ds ih =>
    intro d hd hl
    rcases List.mem_cons.mp hd with hh | ht
    · subst hh
      have hcl : classify_dispute o d txns = none := by simp [classify_dispute, hl]
      simp [process_files, hcl]
    · have hrec := ih d ht hl
      simp only [process_files]
      cases hcl : classify_dispute o d' txns with
      | none => rfl
      | some res =>
        obtain ⟨a, b, c⟩ := res
        rw [hrec]

/-- Counterexample to C7: a dispute row with no description field is
processed without any error — the batch does not fail on the missing
required column. -/
theorem claim_C7_counterexample :
    dNone.description = none ∧
    ∃ out, process_files oR [dNone] txnsB = some out := by
  have hf : ¬ (0.7 : ℚ) ≤ combinedScore oR (descOf dNone) "FRAUD" := by
    rw [combinedScore_FRAUD,
      show (best_fuzzy_match oR KEYWORD_MAP (descOf dNone) "FRAUD").2 = 0 from by decide,
      show best_embedding_score oR KEYWORD_MAP (descOf dNone) "FRAUD" = 0 from rfl]
    norm_num [_combine_scores]
  have hr : (0.6 : ℚ) ≤ combinedScore oR (descOf dNone) "REFUND_PENDING" := by
    rw [combinedScore_REFUND,
      show (best_fuzzy_match oR KEYWORD_MAP (descOf dNone) "REFUND_PENDING").2 = 100
        from by decide,
      show best_embedding_score oR KEYWORD_MAP (descOf dNone) "REFUND_PENDING" = 0 from rfl]
    norm_num [_combine_scores]
  have hcl : classify_dispute oR dNone txnsB = some ("REFUND_PENDING",
      _combined_to_confidence (combinedScore oR (descOf dNone) "REFUND_PENDING"),
      refund_explanation (getEntry (combinedFor oR (descOf dNone)) "REFUND_PENDING")) := by
    rw [classify_eq_textResolve oR dNone txnsB tB (by decide) (by decide)]
    exact textResolve_refund oR (descOf dNone) tB hf hr
  refine ⟨rfl, ⟨?_, ?_⟩⟩
  · exact ([⟨"D1", "REFUND_PENDING",
      _combined_to_confidence (combinedScore oR (descOf dNone) "REFUND_PENDING"),
      refund_explanation (getEntry (combinedFor oR (descOf dNone)) "REFUND_PENDING"), "New"⟩],
      [⟨"D1",
        (suggest_resolution "REFUND_PENDING"
          (refund_explanation (getEntry (combinedFor oR (descOf dNone)) "REFUND_PENDING"))).1,
        (suggest_resolution "REFUND_PENDING"
          (refund_explanation (getEntry (combinedFor oR (descOf dNone)) "REFUND_PENDING"))).2⟩])
  · simp only [process_files, hcl]
    rfl

/-- C7 amended: a missing description field is silently defaulted to
the empty string (classification proceeds as if the description were
empty), while a dispute referencing a transaction absent from the
ledger aborts the whole run with no partial output. -/
theorem claim_C7_amended (o : MatchOracle) (did tid : String) (ts : ℤ)
    (txns : List Transaction) :
    (classify_dispute o ⟨did, none, tid, ts⟩ txns =
      classify_dispute o ⟨did, some "", tid, ts⟩ txns) ∧
    (∀ (ds : List Dispute) (d : Dispute), d ∈ ds → linked_txn d txns = none →
      process_files o ds txns = none) :=
  ⟨rfl, process_files_none o txns⟩

/-- Witness for the amended C7: the missing-description dispute and a
dispute referencing the unknown transaction T9. -/
theorem claim_C7_amended_witness :
    (classify_dispute oR ⟨"D1", none, "T1", 0⟩ txnsB =
      classify_dispute oR ⟨"D1", some "", "T1", 0⟩ txnsB) ∧
    process_files oR [⟨"D9", some "x", "T9", 0⟩] txnsB = none :=
  ⟨(claim_C7_amended oR "D1" "T1" 0 txnsB).1,
   (claim_C7_amended oR "D1" "T1" 0 txnsB).2 [⟨"D9", some "x", "T9", 0⟩]
     ⟨"D9", some "x", "T9", 0⟩ (by simp) (by decide)⟩

/-- With the model loaded but every similarity equal to 0, the
embedding score of every category is 0. -/
theorem embed_zero_eval (f : String → String → ℕ)
    (text cat : String) :
    best_embedding_score ⟨f, true, fun _ _ => 0⟩ KEYWORD_MAP text cat = 0 := by
  cases hlk : lookupList KEYWORD_MAP cat with
  | none => simp [best_embedding_score, hlk]
  | some phrases =>
    simp only [best_embedding_score, hlk]
    cases phrases with
    | nil => rfl
    | cons p ps =>
      simp only [List.map_cons, List.map_const']
      exact foldl_max_replicate 0 ps.length

/-- The combined-score dict only depends on the oracle through the
fuzzy scorer when every embedding score is 0. -/
theorem combinedFor_noembed (o : MatchOracle) (text : String) :
    combinedFor ⟨o.fuzzyScore, false, o.embedScore⟩ text =
      combinedFor ⟨o.fuzzyScore, true, fun _ _ => 0⟩ text := by
  unfold combinedFor
  have hsc : score_all_categories ⟨o.fuzzyScore, false, o.embedScore⟩ KEYWORD_MAP text =
      score_all_categories ⟨o.fuzzyScore, true, fun _ _ => 0⟩ KEYWORD_MAP text := by
    unfold score_all_categories
    apply List.map_congr_left
    intro pair _
    have h1 : best_embedding_score ⟨o.fuzzyScore, false, o.embedScore⟩ KEYWORD_MAP text pair.1
        = 0 := rfl
    have h2 : best_embedding_score ⟨o.fuzzyScore, true, fun _ _ => 0⟩ KEYWORD_MAP text pair.1
        = 0 := embed_zero_eval o.fuzzyScore text pair.1
    dsimp only
    rw [h1, h2]
    rfl
  rw [hsc]

theorem textResolve_congr (o₁ o₂ : MatchOracle) (text : String) (t : Transaction)
    (h : combinedFor o₁ text = combinedFor o₂ text) :
    textResolve o₁ text t = textResolve o₂ text t := by
  unfold textResolve
  rw [h]

theorem classify_congr (o₁ o₂ : MatchOracle) (d : Dispute) (txns : List Transaction)
    (h : ∀ text, combinedFor o₁ text = combinedFor o₂ text) :
    classify_dispute o₁ d txns = classify_dispute o₂ d txns := by
  unfold classify_dispute
  cases hl : linked_txn d txns with
  | none => rfl
  | some t =>
    simp only
    cases hdup : _find_duplicate_transactions t txns 3 with
    | true => simp [hdup]
    | false => simp [hdup, textResolve_congr o₁ o₂ (descOf d) t (h (descOf d))]

/-- C8 amended: with the embedding model unavailable every
semantic-score call returns exactly 0 for every category (and, being a
total function, raises no error), and the classifier behaves exactly as
the hybrid classifier would with every embedding similarity equal to
0; a semantic boost can however change which category wins (see the
counterexample), so the winner is preserved only in that sense. -/
theorem claim_C8_amended (o : MatchOracle) (d : Dispute) (txns : List Transaction)
    (text cat : String) :
    best_embedding_score ⟨o.fuzzyScore, false, o.embedScore⟩ KEYWORD_MAP text cat = 0 ∧
    classify_dispute ⟨o.fuzzyScore, false, o.embedScore⟩ d txns =
      classify_dispute ⟨o.fuzzyScore, true, fun _ _ => 0⟩ d txns :=
  ⟨rfl, classify_congr _ _ d txns (fun t => combinedFor_noembed o t)⟩

/-- The C8 oracle with its embedding model made unavailable. -/
def oEn : MatchOracle := ⟨oE.fuzzyScore, false, oE.embedScore⟩

/-- The C8 dispute: the description matches REFUND_PENDING perfectly on
lexical evidence alone. -/
def d8 : Dispute := ⟨"D8", some "refund", "T1", 0⟩

/-- Counterexample to C8: with embeddings on, the semantic boost pushes
FRAUD over its 0.70 threshold and FRAUD wins; with the same lexical
scores and embeddings off, REFUND_PENDING wins via its lexical score
alone (which crosses the winning tier's 0.60 threshold) — so a dispute
whose lexical score alone crosses the winning tier's threshold can
still change category when the semantic component is removed. -/
theorem claim_C8_counterexample :
    (classify_dispute oE d8 txnsB).map (fun r => r.1) = some "FRAUD" ∧
    (classify_dispute oEn d8 txnsB).map (fun r => r.1) = some "REFUND_PENDING" ∧
    (0.6 : ℚ) ≤ combinedScore oEn (descOf d8) "REFUND_PENDING" := by
  have hlk : linked_txn d8 txnsB = some tB := by decide
  have hdup : _find_duplicate_transactions tB txnsB 3 = false := by decide
  have hfE : (0.7 : ℚ) ≤ combinedScore oE (descOf d8) "FRAUD" := by
    rw [combinedScore_FRAUD,
      show (best_fuzzy_match oE KEYWORD_MAP (descOf d8) "FRAUD").2 = 60 from by decide,
      best_embedding_const oE (descOf d8) "FRAUD" 1 rfl (fun _ => rfl) _ rfl (by decide)]
    norm_num [_combine_scores]
  have hfN : ¬ (0.7 : ℚ) ≤ combinedScore oEn (descOf d8) "FRAUD" := by
    rw [combinedScore_FRAUD,
      show (best_fuzzy_match oEn KEYWORD_MAP (descOf d8) "FRAUD").2 = 60 from by decide,
      show best_embedding_score oEn KEYWORD_MAP (descOf d8) "FRAUD" = 0 from rfl]
    norm_num [_combine_scores]
  have hrN : (0.6 : ℚ) ≤ combinedScore oEn (descOf d8) "REFUND_PENDING" := by
    rw [combinedScore_REFUND,
      show (best_fuzzy_match oEn KEYWORD_MAP (descOf d8) "REFUND_PENDING").2 = 100
        from by decide,
      show best_embedding_score oEn KEYWORD_MAP (descOf d8) "REFUND_PENDING" = 0 from rfl]
    norm_num [_combine_scores]
  refine ⟨?_, ?_, hrN⟩
  · rw [classify_eq_textResolve oE d8 txnsB tB hlk hdup,
      textResolve_fraud oE (descOf d8) tB hfE]
    rfl
  · rw [classify_eq_textResolve oEn d8 txnsB tB hlk hdup,
      textResolve_refund oEn (descOf d8) tB hfN hrN]
    rfl

end DisputeAssistant
